import Mathlib

/-!
Shallow embedding of `scripts/rclone-sync.py` (rclone-sync).

The script wires the `watchdog` library to the `rclone` binary: a
`SyncEventHandler` receives filesystem events and, per event kind and
directory flag, issues rclone subcommands through an `RClone` wrapper
whose `_execute` runs a subprocess and packages the outcome as a Python
dict `{"code": ..., "out": ..., "error": ...}`.

Modelling choices:
* An rclone method call is split into the *invocation* it assembles
  (argument vector plus the `warning_in_debug` flag that controls
  stderr log demotion) and its *execution*.  `RClone._execute` is a
  function of the subprocess outcome (found/ran, `FileNotFoundError`,
  other exception), since the script's result depends only on that.
* The returned Python dict is modelled literally as an association
  list `List (String × DictVal)`, so that the presence or absence of
  the `"out"`/`"error"` keys is observable, exactly as in the source.
* Event handlers are pure functions from the event to the ordered list
  of invocations issued; `on_moved_run` additionally threads an
  execution oracle to show results never feed back into control flow.
-/

/-- Bytes captured from a subprocess stream (`bytes` in Python). -/
abbrev Bytes := List Nat

/-- The exceptions `RClone._execute` catches: `FileNotFoundError`
(binary missing) and any other `Exception` while running the command. -/
inductive PyExc where
  | fileNotFound (msg : String)
  | generic (msg : String)
deriving DecidableEq, Repr

/-- A value stored in the result dict of `RClone._execute`: the integer
return code, captured output bytes, or a caught exception object. -/
inductive DictVal where
  | int (i : Int)
  | bytes (b : Bytes)
  | exc (e : PyExc)
deriving DecidableEq, Repr

/-- The Python dict returned by `RClone._execute`, as an association
list so that absent keys are representable. -/
abbrev Dict := List (String × DictVal)

/-- What the operating system does with one subprocess launch: the
process runs to completion with a return code and captured stdout and
stderr, or `Popen` raises `FileNotFoundError`, or some other exception
is raised. -/
inductive ExecOutcome where
  | completed (returncode : Int) (out : Bytes) (err : Bytes)
  | fileNotFound (msg : String)
  | otherError (msg : String)
deriving DecidableEq, Repr

/-- Is the outcome the normal-completion case? -/
def ExecOutcome.isCompleted : ExecOutcome → Bool
  | .completed _ _ _ => true
  | _ => false

namespace RClone

/-- `RClone._execute` (lines 22–66): runs the command and returns
`{"code": returncode, "out": out, "error": err}`; on
`FileNotFoundError` returns `{"code": -20, "error": e}`; on any other
exception returns `{"code": -30, "error": e}`.  The argument vector and
`warning_in_debug` only affect logging, so the result is a function of
the subprocess outcome alone; totality of this function is the
embedding of "never raises to the caller". -/
def _execute (outcome : ExecOutcome) : Dict :=
  match outcome with
  | .completed returncode out err =>
      [("code", DictVal.int returncode), ("out", DictVal.bytes out),
       ("error", DictVal.bytes err)]
  | .fileNotFound msg =>
      [("code", DictVal.int (-20)), ("error", DictVal.exc (PyExc.fileNotFound msg))]
  | .otherError msg =>
      [("code", DictVal.int (-30)), ("error", DictVal.exc (PyExc.generic msg))]

end RClone

/-- The spec's failure classification of an Operation Result, read off
the dict: `NotFound` when the `"error"` key holds a caught
`FileNotFoundError`, `ExecutionError` when it holds another caught
exception, absent otherwise. -/
inductive FailureReason where
  | notFound
  | executionError
deriving DecidableEq, Repr

/-- The `failureReason` field of the spec's Operation Result, derived
from the dict's `"error"` key. -/
def failureReason (r : Dict) : Option FailureReason :=
  match r.lookup "error" with
  | some (DictVal.exc (PyExc.fileNotFound _)) => some FailureReason.notFound
  | some (DictVal.exc (PyExc.generic _)) => some FailureReason.executionError
  | _ => none

/-- The `"code"` entry of an Operation Result (always an int in every
dict the script builds; 0 as a don't-care fallback). -/
def resCode (r : Dict) : Int :=
  match r.lookup "code" with
  | some (DictVal.int i) => i
  | _ => 0

/-- One rclone invocation as assembled by `RClone.run_cmd`: the full
argument vector handed to `Popen` and the `warning_in_debug` flag that
demotes stderr logging from warning to debug. -/
structure Invocation where
  argv : List String
  warning_in_debug : Bool
deriving DecidableEq, Repr

namespace RClone

/-- `RClone.run_cmd` (lines 68–80): builds
`["rclone", command] + extra_args` (the execution itself is modelled by
`_execute`). -/
def runCmd (command : String) (extra_args : List String)
    (warning_in_debug : Bool) : Invocation :=
  ⟨["rclone", command] ++ extra_args, warning_in_debug⟩

/-- `RClone.copyto` (lines 82–90). -/
def copyto (source dest : String) (flags : List String)
    (warning_in_debug : Bool) : Invocation :=
  runCmd "copyto" ([source] ++ [dest] ++ flags) warning_in_debug

/-- `RClone.mkdir` (lines 92–99). -/
def mkdir (dest : String) (flags : List String)
    (warning_in_debug : Bool) : Invocation :=
  runCmd "mkdir" ([dest] ++ flags) warning_in_debug

/-- `RClone.deletefile` (lines 170–176). -/
def deletefile (dest : String) (flags : List String)
    (warning_in_debug : Bool) : Invocation :=
  runCmd "deletefile" ([dest] ++ flags) warning_in_debug

/-- `RClone.purge` (lines 178–184). -/
def purge (dest : String) (flags : List String)
    (warning_in_debug : Bool) : Invocation :=
  runCmd "purge" ([dest] ++ flags) warning_in_debug

/-- `RClone.lsd` (lines 146–152). -/
def lsd (dest : String) (flags : List String)
    (warning_in_debug : Bool) : Invocation :=
  runCmd "lsd" ([dest] ++ flags) warning_in_debug

end RClone

/-- Python `haystack.replace(old, new, 1)` on character lists: replace
the leftmost occurrence of `old` by `new`; unchanged when `old` does
not occur (an empty `old` matches at position 0). -/
def replaceFirstChars (old new : List Char) : List Char → List Char
  | [] => if old = [] then new else []
  | c :: rest =>
      if old.isPrefixOf (c :: rest) then new ++ (c :: rest).drop old.length
      else c :: replaceFirstChars old new rest

/-- Python `s.replace(old, new, 1)` on strings. -/
def strReplaceFirst (s old new : String) : String :=
  ⟨replaceFirstChars old.data new.data s.data⟩

/-- Event kinds delivered by watchdog; the observer dispatches each to
the like-named `on_*` handler method. -/
inductive EventKind where
  | created
  | deleted
  | modified
  | moved
deriving DecidableEq, Repr

/-- A watchdog filesystem event: kind, directory flag, source path and
(for moves; empty otherwise) destination path. -/
structure FSEvent where
  kind : EventKind
  is_directory : Bool
  src_path : String
  dest_path : String
deriving DecidableEq, Repr

/-- The `SyncEventHandler` state fixed by `__init__` (lines 188–197):
the local and remote roots and the shared `rclone_args` flag list. -/
structure SyncEventHandler where
  local_dir : String
  remote_dir : String
  rclone_args : List String
deriving DecidableEq, Repr

namespace SyncEventHandler

/-- `SyncEventHandler.__init__` (lines 188–197): `rclone_args` starts
empty and receives `"--dry-run"` exactly when `dry_run` is true. -/
def init (local_dir remote_dir : String) (dry_run : Bool) : SyncEventHandler :=
  ⟨local_dir, remote_dir, if dry_run then ["--dry-run"] else []⟩

/-- `SyncEventHandler._remote_path` (lines 199–200):
`local_path.replace(self.local_dir, self.remote_dir, 1)`. -/
def _remote_path (h : SyncEventHandler) (local_path : String) : String :=
  strReplaceFirst local_path h.local_dir h.remote_dir

/-- `SyncEventHandler.on_moved` (lines 202–224), as the ordered list of
invocations it issues. -/
def on_moved (h : SyncEventHandler) (event : FSEvent) : List Invocation :=
  if event.is_directory then
    [RClone.purge (h._remote_path event.src_path)
        (h.rclone_args ++ ["--retries", "1"]) true,
     RClone.mkdir (h._remote_path event.dest_path) h.rclone_args false]
  else
    [RClone.deletefile (h._remote_path event.src_path)
        (h.rclone_args ++ ["--retries", "1"]) true,
     RClone.copyto event.dest_path (h._remote_path event.dest_path)
        h.rclone_args false]

/-- `SyncEventHandler.on_created` (lines 226–240). -/
def on_created (h : SyncEventHandler) (event : FSEvent) : List Invocation :=
  if event.is_directory then
    [RClone.mkdir (h._remote_path event.src_path) h.rclone_args false]
  else
    [RClone.copyto event.src_path (h._remote_path event.src_path)
        h.rclone_args false]

/-- `SyncEventHandler.on_deleted` (lines 242–256). -/
def on_deleted (h : SyncEventHandler) (event : FSEvent) : List Invocation :=
  if event.is_directory then
    [RClone.purge (h._remote_path event.src_path) h.rclone_args false]
  else
    [RClone.deletefile (h._remote_path event.src_path) h.rclone_args false]

/-- `SyncEventHandler.on_modified` (lines 258–268): directory
modifications issue nothing. -/
def on_modified (h : SyncEventHandler) (event : FSEvent) : List Invocation :=
  if event.is_directory then []
  else
    [RClone.copyto event.src_path (h._remote_path event.src_path)
        h.rclone_args false]

/-- The watchdog dispatch: route an event to its `on_*` handler by
kind; the engine's full behaviour on one event. -/
def handle (h : SyncEventHandler) (event : FSEvent) : List Invocation :=
  match event.kind with
  | .created => h.on_created event
  | .deleted => h.on_deleted event
  | .modified => h.on_modified event
  | .moved => h.on_moved event

/-- `on_moved` with execution made explicit: each rclone call is
performed in textual order via the oracle `exec` (which stands for the
subprocess run), and — as in the source, which never inspects the
returned dicts — the next call is made regardless of the previous
result.  Returns the (invocation, result) trace in order. -/
def on_moved_run (exec : Invocation → Dict) (h : SyncEventHandler)
    (event : FSEvent) : List (Invocation × Dict) :=
  if event.is_directory then
    let i1 := RClone.purge (h._remote_path event.src_path)
        (h.rclone_args ++ ["--retries", "1"]) true
    let r1 := exec i1
    let i2 := RClone.mkdir (h._remote_path event.dest_path) h.rclone_args false
    let r2 := exec i2
    [(i1, r1), (i2, r2)]
  else
    let i1 := RClone.deletefile (h._remote_path event.src_path)
        (h.rclone_args ++ ["--retries", "1"]) true
    let r1 := exec i1
    let i2 := RClone.copyto event.dest_path (h._remote_path event.dest_path)
        h.rclone_args false
    let r2 := exec i2
    [(i1, r1), (i2, r2)]

end SyncEventHandler

/-- The configuration dict of `main` (lines 296–302); `Option` models a
key that may be missing from the JSON object (`dict.get`). -/
structure Conf where
  local_dir : Option String
  remote_dir : Option String
  dry_run : Option Bool
  log_level : Option String
deriving DecidableEq, Repr

/-- Line 301: `dry_run = conf_dict.get("dry_run", False)`. -/
def mainDryRun (c : Conf) : Bool := c.dry_run.getD false

/-- Line 319: the startup remote-dir validation raises exactly when
`event_handler.rclone.lsd(remote_dir).get('code') == 1`. -/
def mainRemoteCheckRaises (r : Dict) : Prop :=
  r.lookup "code" = some (DictVal.int 1)

instance (r : Dict) : Decidable (mainRemoteCheckRaises r) := by
  unfold mainRemoteCheckRaises; infer_instance

example :
    (SyncEventHandler.init "/data" "remote:backup" false)._remote_path
      "/data/a/b.txt" = "remote:backup/a/b.txt" := by decide

example :
    SyncEventHandler.handle (SyncEventHandler.init "/data" "remote:backup" true)
      ⟨EventKind.created, false, "/data/a", ""⟩ =
    [⟨["rclone", "copyto", "/data/a", "remote:backup/a", "--dry-run"], false⟩] := by
  decide

/-- When `old` occurs at the start of the string, the leftmost-occurrence
replacement substitutes that occurrence and keeps the rest unchanged. -/
theorem replaceFirstChars_of_isPrefixOf (old new s : List Char)
    (hpre : old.isPrefixOf s = true) :
    replaceFirstChars old new s = new ++ s.drop old.length := by
  cases s with
  | nil =>
      have hold : old = [] :=
        List.prefix_nil.mp (List.isPrefixOf_iff_prefix.mp hpre)
      subst hold
      simp [replaceFirstChars]
  | cons c rest =>
      simp [replaceFirstChars, hpre]

/-- The dry-run flag appears in an issued argument vector exactly when
the handler was constructed with `dry_run = True`, as long as none of
the event's paths (or their mapped forms) is itself the literal string
`"--dry-run"`. -/
theorem mem_handle_dry_run_iff (L R : String) (dr : Bool) (e : FSEvent)
    (inv : Invocation)
    (hmem : inv ∈ SyncEventHandler.handle (SyncEventHandler.init L R dr) e)
    (h1 : e.src_path ≠ "--dry-run") (h2 : e.dest_path ≠ "--dry-run")
    (h3 : strReplaceFirst e.src_path L R ≠ "--dry-run")
    (h4 : strReplaceFirst e.dest_path L R ≠ "--dry-run") :
    ("--dry-run" ∈ inv.argv ↔ dr = true) := by
  obtain ⟨k, b, s, d⟩ := e
  simp only at h1 h2 h3 h4
  cases k <;> cases b <;> cases dr <;>
    simp_all [SyncEventHandler.handle, SyncEventHandler.on_created,
      SyncEventHandler.on_deleted, SyncEventHandler.on_modified,
      SyncEventHandler.on_moved, SyncEventHandler.init,
      SyncEventHandler._remote_path, RClone.copyto, RClone.mkdir,
      RClone.purge, RClone.deletefile, RClone.runCmd, eq_comm] <;>
    (rcases hmem with rfl | rfl <;> simp_all [eq_comm])

/-- C1: for every Moved event (directory or file), `on_moved` issues
exactly two invocations, the first being the delete operation (`purge`
for directories, `deletefile` for files) on the mapped source path and
the second the create operation (`mkdir` for directories, `copyto` to
the mapped destination for files) — so the delete is issued strictly
before the create. -/
theorem C1_moved_delete_before_create (h : SyncEventHandler) (b : Bool)
    (s d : String) :
    ∃ del cr,
      h.on_moved ⟨EventKind.moved, b, s, d⟩ = [del, cr] ∧
      del.argv.get? 1 = some (cond b "purge" "deletefile") ∧
      del.argv.get? 2 = some (h._remote_path s) ∧
      cr.argv.get? 1 = some (cond b "mkdir" "copyto") ∧
      cr.argv.get? (cond b 2 3) = some (h._remote_path d) := by
  cases b <;> exact ⟨_, _, rfl, rfl, rfl, rfl, rfl⟩

/-- C2: when the local root is a prefix of the path, `_remote_path`
replaces exactly that first occurrence with the remote root and keeps
the rest of the path byte-identical (no normalisation of any kind). -/
theorem C2_remote_path_prefix_substitution (h : SyncEventHandler) (p : String)
    (hpre : h.local_dir.data.isPrefixOf p.data = true) :
    (h._remote_path p).data =
      h.remote_dir.data ++ p.data.drop h.local_dir.data.length := by
  exact replaceFirstChars_of_isPrefixOf h.local_dir.data h.remote_dir.data
    p.data hpre

/-- Witness for C2 at `L=/data`, `R=remote:backup`, `p=/data/a/b.txt`. -/
theorem C2_remote_path_prefix_substitution_witness :
    (SyncEventHandler.init "/data" "remote:backup" false).local_dir.data.isPrefixOf
        "/data/a/b.txt".data = true ∧
    ((SyncEventHandler.init "/data" "remote:backup" false)._remote_path
        "/data/a/b.txt").data =
      (SyncEventHandler.init "/data" "remote:backup" false).remote_dir.data ++
        "/data/a/b.txt".data.drop
          (SyncEventHandler.init "/data" "remote:backup" false).local_dir.data.length :=
  ⟨by decide,
   C2_remote_path_prefix_substitution
     (SyncEventHandler.init "/data" "remote:backup" false) "/data/a/b.txt"
     (by decide)⟩

/-- C3: when the handler is built with `dry_run = True`, every issued
argument vector contains `"--dry-run"`; with `dry_run = False`, none
does (given that no event path or mapped path is itself the literal
string `"--dry-run"`). -/
theorem C3_dry_run_propagation (L R : String) (dr : Bool) (e : FSEvent)
    (inv : Invocation)
    (hmem : inv ∈ SyncEventHandler.handle (SyncEventHandler.init L R dr) e)
    (h1 : e.src_path ≠ "--dry-run") (h2 : e.dest_path ≠ "--dry-run")
    (h3 : strReplaceFirst e.src_path L R ≠ "--dry-run")
    (h4 : strReplaceFirst e.dest_path L R ≠ "--dry-run") :
    ("--dry-run" ∈ inv.argv ↔ dr = true) :=
  mem_handle_dry_run_iff L R dr e inv hmem h1 h2 h3 h4

/-- Witness for C3: a dry-run handler's copy invocation for a created
file carries the flag. -/
theorem C3_dry_run_propagation_witness :
    (Invocation.mk ["rclone", "copyto", "/data/a", "remote:backup/a", "--dry-run"]
        false) ∈
      SyncEventHandler.handle (SyncEventHandler.init "/data" "remote:backup" true)
        ⟨EventKind.created, false, "/data/a", ""⟩ ∧
    ("--dry-run" ∈ (Invocation.mk
        ["rclone", "copyto", "/data/a", "remote:backup/a", "--dry-run"]
        false).argv ↔ true = true) :=
  ⟨by decide,
   C3_dry_run_propagation "/data" "remote:backup" true
     ⟨EventKind.created, false, "/data/a", ""⟩
     (Invocation.mk ["rclone", "copyto", "/data/a", "remote:backup/a", "--dry-run"]
        false)
     (by decide) (by decide) (by decide) (by decide) (by decide)⟩

/-- C4: `_execute` never raises (it is a total function of the launch
outcome): a missing binary yields code `-20` classified `NotFound`, any
other launch fault yields code `-30` classified `ExecutionError`, and a
completed run yields the subprocess's exit code with its captured
stdout and stderr bytes and no failure classification. -/
theorem C4_execute_never_raises_classification :
    (∀ (rc : Int) (o e : Bytes),
        resCode (RClone._execute (ExecOutcome.completed rc o e)) = rc ∧
        (RClone._execute (ExecOutcome.completed rc o e)).lookup "out" =
          some (DictVal.bytes o) ∧
        (RClone._execute (ExecOutcome.completed rc o e)).lookup "error" =
          some (DictVal.bytes e) ∧
        failureReason (RClone._execute (ExecOutcome.completed rc o e)) = none) ∧
    (∀ msg, resCode (RClone._execute (ExecOutcome.fileNotFound msg)) = -20 ∧
        failureReason (RClone._execute (ExecOutcome.fileNotFound msg)) =
          some FailureReason.notFound) ∧
    (∀ msg, resCode (RClone._execute (ExecOutcome.otherError msg)) = -30 ∧
        failureReason (RClone._execute (ExecOutcome.otherError msg)) =
          some FailureReason.executionError) := by
  refine ⟨fun rc o e => ⟨?_, ?_, ?_, ?_⟩, fun m => ⟨?_, ?_⟩, fun m => ⟨?_, ?_⟩⟩ <;>
    rfl

/-- C5: in the Moved-directory sequence, even when the first (purge)
result is failing (non-zero code, which includes the `-20`/`-30`
sentinels), the second invocation (mkdir at the mapped destination) is
still issued; indeed the trace never branches on any result. -/
theorem C5_moved_dir_failure_continues (exec : Invocation → Dict)
    (h : SyncEventHandler) (s d : String)
    (hfail : resCode (exec (RClone.purge (h._remote_path s)
        (h.rclone_args ++ ["--retries", "1"]) true)) ≠ 0) :
    (SyncEventHandler.on_moved_run exec h ⟨EventKind.moved, true, s, d⟩).get? 1 =
      some (RClone.mkdir (h._remote_path d) h.rclone_args false,
        exec (RClone.mkdir (h._remote_path d) h.rclone_args false)) ∧
    ∀ e : FSEvent,
      SyncEventHandler.on_moved_run exec h e =
        (h.on_moved e).map (fun i => (i, exec i)) := by
  refine ⟨rfl, fun e => ?_⟩
  by_cases hb : e.is_directory <;>
    simp [SyncEventHandler.on_moved_run, SyncEventHandler.on_moved, hb]

/-- Witness for C5: an oracle that fails every invocation with code 1
still produces the mkdir as the second trace element. -/
theorem C5_moved_dir_failure_continues_witness :
    resCode ((fun _ => [("code", DictVal.int 1)] : Invocation → Dict)
        (RClone.purge
          ((SyncEventHandler.init "/data" "remote:backup" false)._remote_path
            "/data/x")
          ((SyncEventHandler.init "/data" "remote:backup" false).rclone_args ++
            ["--retries", "1"]) true)) ≠ 0 ∧
    (SyncEventHandler.on_moved_run
        (fun _ => [("code", DictVal.int 1)])
        (SyncEventHandler.init "/data" "remote:backup" false)
        ⟨EventKind.moved, true, "/data/x", "/data/y"⟩).get? 1 =
      some (RClone.mkdir
          ((SyncEventHandler.init "/data" "remote:backup" false)._remote_path
            "/data/y")
          (SyncEventHandler.init "/data" "remote:backup" false).rclone_args false,
        (fun _ => [("code", DictVal.int 1)] : Invocation → Dict)
          (RClone.mkdir
            ((SyncEventHandler.init "/data" "remote:backup" false)._remote_path
              "/data/y")
            (SyncEventHandler.init "/data" "remote:backup" false).rclone_args
            false)) :=
  ⟨by decide,
   (C5_moved_dir_failure_continues (fun _ => [("code", DictVal.int 1)])
     (SyncEventHandler.init "/data" "remote:backup" false) "/data/x" "/data/y"
     (by decide)).1⟩

/-- C6: in every Moved event the first (delete/purge) invocation has
`warning_in_debug` set (stderr demoted to debug) and ends with the
appended `--retries 1` flags, while the second (create/copy) invocation
has `warning_in_debug` unset and carries no `--retries` flag (given the
destination path and its mapped form are not the literal `"--retries"`). -/
theorem C6_moved_retry_and_warning_demotion (L R : String) (dr b : Bool)
    (s d : String)
    (h1 : d ≠ "--retries")
    (h2 : strReplaceFirst d L R ≠ "--retries") :
    ∃ del cr,
      (SyncEventHandler.init L R dr).on_moved ⟨EventKind.moved, b, s, d⟩ =
        [del, cr] ∧
      del.warning_in_debug = true ∧
      del.argv.drop (del.argv.length - 2) = ["--retries", "1"] ∧
      cr.warning_in_debug = false ∧
      "--retries" ∉ cr.argv := by
  cases b <;> cases dr <;>
    refine ⟨_, _, rfl, rfl, rfl, rfl, ?_⟩ <;>
    simp_all [SyncEventHandler.on_moved, SyncEventHandler.init,
      SyncEventHandler._remote_path, RClone.copyto, RClone.mkdir,
      RClone.purge, RClone.deletefile, RClone.runCmd, eq_comm]

/-- Witness for C6 at a concrete moved-directory event. -/
theorem C6_moved_retry_and_warning_demotion_witness :
    ("/data/y" : String) ≠ "--retries" ∧
    strReplaceFirst "/data/y" "/data" "remote:backup" ≠ "--retries" ∧
    (∃ del cr,
      (SyncEventHandler.init "/data" "remote:backup" true).on_moved
          ⟨EventKind.moved, true, "/data/x", "/data/y"⟩ = [del, cr] ∧
      del.warning_in_debug = true ∧
      del.argv.drop (del.argv.length - 2) = ["--retries", "1"] ∧
      cr.warning_in_debug = false ∧
      "--retries" ∉ cr.argv) :=
  ⟨by decide, by decide,
   C6_moved_retry_and_warning_demotion "/data" "remote:backup" true true
     "/data/x" "/data/y" (by decide) (by decide)⟩

/-- C7: a Modified event on a directory issues no invocation at all; a
Modified event on a file issues exactly one `copyto` from the local
source path to its mapped remote path. -/
theorem C7_modified_dispatch (h : SyncEventHandler) (s d : String) :
    SyncEventHandler.handle h ⟨EventKind.modified, true, s, d⟩ = [] ∧
    SyncEventHandler.handle h ⟨EventKind.modified, false, s, d⟩ =
      [⟨["rclone", "copyto", s, h._remote_path s] ++ h.rclone_args, false⟩] :=
  ⟨rfl, rfl⟩

/-- C8 counterexample: an lsd run that exits with the non-success code
3 does not trigger the startup `raise` — the code raises only on exit
code exactly 1, refuting "raised if and only if non-success". -/
theorem C8_counterexample_code_three :
    resCode (RClone._execute (ExecOutcome.completed 3 [] [])) ≠ 0 ∧
    ¬ mainRemoteCheckRaises (RClone._execute (ExecOutcome.completed 3 [] [])) := by
  decide

/-- C8 amended: the startup configuration error is raised if and only
if the lsd invocation's result carries exit code exactly 1; any other
outcome — including other non-zero exit codes and the `-20`/`-30`
sentinel failures — proceeds to watching. -/
theorem C8_amended_raise_iff_code_one :
    (∀ (rc : Int) (o e : Bytes),
        mainRemoteCheckRaises (RClone._execute (ExecOutcome.completed rc o e)) ↔
          rc = 1) ∧
    (∀ msg, ¬ mainRemoteCheckRaises (RClone._execute (ExecOutcome.fileNotFound msg))) ∧
    (∀ msg, ¬ mainRemoteCheckRaises (RClone._execute (ExecOutcome.otherError msg))) := by
  refine ⟨fun rc o e => ?_, fun m => ?_, fun m => ?_⟩ <;>
    simp [mainRemoteCheckRaises, RClone._execute, List.lookup]

/-- C9 counterexample: the NotFound sentinel failure dict has no
`"out"` (stdout) key at all, refuting "every Operation Result …
contains … a stdout field of bytes". -/
theorem C9_counterexample_sentinel_without_stdout :
    (RClone._execute (ExecOutcome.fileNotFound "rclone")).lookup "out" = none ∧
    resCode (RClone._execute (ExecOutcome.fileNotFound "rclone")) = -20 := by
  decide

/-- C9 amended: every Operation Result contains an integer exit code
and an `"error"` entry, but a stdout entry is present exactly on normal
completion — the NotFound and ExecutionError sentinel failures omit it
(their `"error"` entry holds the caught exception instead of bytes). -/
theorem C9_amended_result_fields (o : ExecOutcome) :
    (∃ i, (RClone._execute o).lookup "code" = some (DictVal.int i)) ∧
    (∃ v, (RClone._execute o).lookup "error" = some v) ∧
    ((∃ b, (RClone._execute o).lookup "out" = some (DictVal.bytes b)) ↔
      o.isCompleted = true) := by
  cases o <;>
    simp [RClone._execute, ExecOutcome.isCompleted, List.lookup]

/-- C10: with a parsed configuration lacking the `dry_run` key, `main`
reads it as `False`, the handler is constructed with empty
`rclone_args`, and no issued invocation carries `"--dry-run"` (given no
event path or mapped path is itself that literal string). -/
theorem C10_missing_dry_run_key_defaults_off (c : Conf) (L R : String)
    (e : FSEvent) (inv : Invocation)
    (hkey : c.dry_run = none)
    (hmem : inv ∈ SyncEventHandler.handle
        (SyncEventHandler.init L R (mainDryRun c)) e)
    (h1 : e.src_path ≠ "--dry-run") (h2 : e.dest_path ≠ "--dry-run")
    (h3 : strReplaceFirst e.src_path L R ≠ "--dry-run")
    (h4 : strReplaceFirst e.dest_path L R ≠ "--dry-run") :
    mainDryRun c = false ∧
    (SyncEventHandler.init L R (mainDryRun c)).rclone_args = [] ∧
    "--dry-run" ∉ inv.argv := by
  have hdr : mainDryRun c = false := by simp [mainDryRun, hkey]
  refine ⟨hdr, by simp [SyncEventHandler.init, hdr], fun hm => ?_⟩
  have hiff := mem_handle_dry_run_iff L R (mainDryRun c) e inv hmem h1 h2 h3 h4
  rw [hdr] at hiff
  simpa using hiff.mp hm

/-- Witness for C10: a config without `dry_run`, a created-file event,
and the single invocation it produces. -/
theorem C10_missing_dry_run_key_defaults_off_witness :
    (Conf.mk (some "/data") (some "remote:backup") none (some "INFO")).dry_run
        = none ∧
    (Invocation.mk ["rclone", "copyto", "/data/a", "remote:backup/a"] false) ∈
      SyncEventHandler.handle
        (SyncEventHandler.init "/data" "remote:backup"
          (mainDryRun (Conf.mk (some "/data") (some "remote:backup") none
            (some "INFO"))))
        ⟨EventKind.created, false, "/data/a", ""⟩ ∧
    (mainDryRun (Conf.mk (some "/data") (some "remote:backup") none
        (some "INFO")) = false ∧
      (SyncEventHandler.init "/data" "remote:backup"
        (mainDryRun (Conf.mk (some "/data") (some "remote:backup") none
          (some "INFO")))).rclone_args = [] ∧
      "--dry-run" ∉ (Invocation.mk
        ["rclone", "copyto", "/data/a", "remote:backup/a"] false).argv) :=
  ⟨by decide, by decide,
   C10_missing_dry_run_key_defaults_off
     (Conf.mk (some "/data") (some "remote:backup") none (some "INFO"))
     "/data" "remote:backup" ⟨EventKind.created, false, "/data/a", ""⟩
     (Invocation.mk ["rclone", "copyto", "/data/a", "remote:backup/a"] false)
     (by decide) (by decide) (by decide) (by decide) (by decide) (by decide)⟩
